import Mathlib

/-!
Shallow embedding of the course-recommendation sample
(`src/lambdas/code/agent_actions/opensearch_utils.py`,
`src/lambdas/code/agent_actions/index.py`,
`src/lambdas/code/whatsapp_forwarder/lambda_function.py`)
together with theorems settling the frozen claims about it.

Modelling conventions:
* Python exceptions become an explicit error type `PyErr`; a function that can
  raise returns `Except PyErr α`, and a `try/except` block becomes a `match`.
* External effects (the Bedrock model, the OpenSearch index, the clock) are
  oracles passed in explicitly; an oracle for a retried call maps the attempt
  index to the outcome of that attempt.
* Machine floats (the retrieval relevance score) are never computed with by the
  claims; the score is carried as an opaque string field.
* Wall-clock sleeping is observable only as a count of performed sleeps.
-/

/-- Python exception values as relevant to the retry classifier: a botocore
`ClientError` carries an optional error code and a message (both read from
`e.response`); any other exception is summarised by its message (`str(e)`). -/
inductive PyErr where
  | clientError (code : Option String) (message : String)
  | otherError (message : String)
  deriving Repr, DecidableEq

/-- Whether the first list is a prefix of the second, on characters. -/
def listPrefix : List Char → List Char → Bool
  | [], _ => true
  | _ :: _, [] => false
  | p :: ps, c :: cs => p == c && listPrefix ps cs

/-- Whether the first list occurs as a contiguous run inside the second. -/
def listInfix : List Char → List Char → Bool
  | ps, [] => ps.isEmpty
  | ps, c :: cs => listPrefix ps (c :: cs) || listInfix ps cs

/-- Python `pat in s` substring test. -/
def strContains (s pat : String) : Bool :=
  listInfix pat.data s.data

/-- Python `s.lower()`; the classifier patterns are ASCII, on which
`Char.toLower` agrees with Python. -/
def pyLower (s : String) : String :=
  String.mk (s.data.map Char.toLower)

/-- Python `str(e)` for the modelled exceptions.  For a `ClientError`,
botocore renders code and message into the string; the exact rendering is
irrelevant to the claims, so the model concatenates them. -/
def PyErr.toStr : PyErr → String
  | .clientError code msg => (code.getD "Unknown") ++ ": " ++ msg
  | .otherError msg => msg

/-- Throttle classification of `retry_with_backoff`
(`opensearch_utils.py` lines 36-66): a `ClientError` is a throttle when its
code is one of the three listed codes or its lowercased message contains
"request rate is too high" or "throttling"; any other exception is a throttle
when its lowercased `str(e)` contains "request rate is too high", "throttling"
or "too many requests". -/
def isThrottle : PyErr → Bool
  | .clientError code msg =>
      (code == some "ThrottlingException" || code == some "TooManyRequestsException" ||
        code == some "RequestLimitExceeded") ||
      strContains (pyLower msg) "request rate is too high" ||
      strContains (pyLower msg) "throttling"
  | .otherError msg =>
      strContains (pyLower msg) "request rate is too high" ||
      strContains (pyLower msg) "throttling" ||
      strContains (pyLower msg) "too many requests"

/-- The claim C2 classification of a throttling/rate-limit error: matched by
error code, or by case-insensitive substring match on "throttling",
"too many requests" or "request rate is too high"; a fatal error is any
other error.  (Stated from the claim text; compare `isThrottle`, stated from
the source.) -/
def claimThrottle (e : PyErr) : Bool :=
  (match e with
    | .clientError code _ =>
        code == some "ThrottlingException" || code == some "TooManyRequestsException" ||
        code == some "RequestLimitExceeded"
    | .otherError _ => false) ||
  (let msg := pyLower (match e with
    | .clientError _ m => m
    | .otherError m => m)
   strContains msg "throttling" || strContains msg "too many requests" ||
   strContains msg "request rate is too high")

/-- Observable outcome of one `retry_with_backoff` run: the returned value or
raised error, the number of attempts made (calls of `func`), the number of
backoff sleeps performed, and whether the maximum-retries branch fired (the
`Maximum retries reached` log at lines 47 / 70 before re-raising). -/
structure RetryTrace (α : Type) where
  result : Except PyErr α
  attempts : Nat
  sleeps : Nat
  exhausted : Bool
  deriving Repr

/-- Loop body of `retry_with_backoff` (`opensearch_utils.py` lines 33-83).
`op` maps the attempt index to the outcome of that attempt; `attempt` is the
current attempt index, which equals the `retries` counter of the source
because every earlier attempt ended in a retried throttle; `budget` is
`max_retries - retries`, the number of retries still allowed.  The backoff
durations (jittered, doubled, capped) are pure sleeps with no observable
effect beyond the sleep count, so the trace records only that count. -/
def retryAux {α : Type} (op : Nat → Except PyErr α) : Nat → Nat → RetryTrace α
  | attempt, budget =>
    match op attempt with
    | .ok v => ⟨.ok v, attempt + 1, attempt, false⟩
    | .error e =>
        if isThrottle e then
          match budget with
          | 0 => ⟨.error e, attempt + 1, attempt, true⟩
          | b + 1 => retryAux op (attempt + 1) b
        else ⟨.error e, attempt + 1, attempt, false⟩

/-- `retry_with_backoff(func, max_retries=5, initial_backoff=1, max_backoff=32)`
(`opensearch_utils.py` lines 17-83): run `func`, retrying throttle-classified
failures up to `max_retries` times with backoff, re-raising a fatal failure
immediately and the last throttle failure once retries are exhausted. -/
def retry_with_backoff {α : Type} (op : Nat → Except PyErr α)
    (max_retries : Nat := 5) : RetryTrace α :=
  retryAux op 0 max_retries

/-- Worker for `pyWords`: scan the characters, accumulating the current token
in reverse; a whitespace character ends the token (if any), and the final
token is flushed at the end of the input. -/
def pyWordsCore : List Char → List Char → List String
  | [], acc => if acc.isEmpty then [] else [String.mk acc.reverse]
  | c :: cs, acc =>
    if c.isWhitespace then
      if acc.isEmpty then pyWordsCore cs []
      else String.mk acc.reverse :: pyWordsCore cs []
    else pyWordsCore cs (c :: acc)

/-- Python `input_text.split()`: split on runs of whitespace, discarding empty
pieces (so every element of the result is a non-empty token). -/
def pyWords (s : String) : List String :=
  pyWordsCore s.data []

/-- Python truthiness of an optional string (`if level:`): `None` and the empty
string are falsy. -/
def pyTruthy : Option String → Bool
  | some s => s != ""
  | none => false

/-- `extract_subject(input_text)` (`index.py` lines 97-127).  The Bedrock
`converse` call of `_extract_subject` (prompt construction, model invocation
and `.strip()` of the returned text) is the oracle `subject_op`, mapping the
attempt index to the stripped model output or the raised error; the call is
run through `retry_with_backoff` and on failure the subject falls back to the
first whitespace token of the input, or "general" when there is none. -/
def extract_subject (subject_op : Nat → Except PyErr String) (input_text : String) : String :=
  match (retry_with_backoff subject_op).result with
  | .ok s => s
  | .error _ => (pyWords input_text).headD "general"

/-- `extract_parameter(input_text, param_type)` (`index.py` lines 129-165).
The Bedrock call of `_extract_parameter` is the oracle `param_op`; the source
returns the extracted value unless it equals "NONE", and `None` when the value
is "NONE" or the retried call fails. -/
def extract_parameter (param_op : Nat → Except PyErr String) : Option String :=
  match (retry_with_backoff param_op).result with
  | .ok value => if value == "NONE" then none else some value
  | .error _ => none

/-- One course document: a JSON object modelled as an insertion-ordered
association list of field name and field value; values the claims never
inspect (including the float relevance score) are carried as strings. -/
abbrev Course := List (String × String)

/-- Python dict assignment `d[k] = v` on an insertion-ordered object: replace
the value in place when the key exists, otherwise append the binding. -/
def dictSet (d : Course) (k v : String) : Course :=
  if (d.find? (fun p => p.fst == k)).isSome then
    d.map (fun p => if p.fst == k then (k, v) else p)
  else d ++ [(k, v)]

/-- One OpenSearch hit as consumed by `search_courses`
(`opensearch_utils.py` lines 169-175): the `_source` document, the `_id`, and
the `_score` (an opaque float rendering). -/
structure Hit where
  source : Course
  hitId : String
  score : String
  deriving Repr, DecidableEq

/-- Per-hit formatting of `opensearch_utils.search_courses` (lines 169-175):
set `course["score"]` from the hit score and, when the document has no
`courseId` field, set `course["courseId"]` from the hit id (the modelled hit
always carries an id). -/
def formatHit (hit : Hit) : Course :=
  let course := dictSet hit.source "score" hit.score
  if (course.find? (fun p => p.fst == "courseId")).isSome then course
  else dictSet course "courseId" hit.hitId

/-- Timestamp of `datetime.now()`, split into the calendar fields that
`strftime` reads. -/
structure Timestamp where
  year : Nat
  month : Nat
  day : Nat
  hour : Nat
  minute : Nat
  second : Nat
  deriving Repr, DecidableEq

/-- Character of one decimal digit (the low decimal digit of `d`). -/
def digitChar (d : Nat) : Char := Char.ofNat (48 + d % 10)

/-- Two-digit zero-padded decimal rendering, the `strftime` conversions
`%m %d %H %M %S`; faithful on the datetime field ranges (values below 100). -/
def fmt2 (n : Nat) : String := String.mk [digitChar (n / 10), digitChar n]

/-- Four-digit decimal rendering, the `strftime` conversion `%Y`; faithful on
the years 1000-9999 (where `%Y` prints exactly the four decimal digits). -/
def fmt4 (n : Nat) : String :=
  String.mk [digitChar (n / 1000), digitChar (n / 100), digitChar (n / 10), digitChar n]

/-- `datetime.now().strftime("%Y%m%d%H%M%S")` as used for the booking id. -/
def Timestamp.compact (t : Timestamp) : String :=
  fmt4 t.year ++ fmt2 t.month ++ fmt2 t.day ++ fmt2 t.hour ++ fmt2 t.minute ++ fmt2 t.second

/-- `datetime.now().strftime("%Y-%m-%d")` as used for the booking start date. -/
def Timestamp.dateStr (t : Timestamp) : String :=
  fmt4 t.year ++ "-" ++ fmt2 t.month ++ "-" ++ fmt2 t.day

/-- Ranges every `datetime.now()` value satisfies (restricted to four-digit
years, on which the `%Y` model is exact). -/
def Timestamp.Valid (t : Timestamp) : Prop :=
  1000 ≤ t.year ∧ t.year ≤ 9999 ∧ 1 ≤ t.month ∧ t.month ≤ 12 ∧ 1 ≤ t.day ∧ t.day ≤ 31 ∧
    t.hour ≤ 23 ∧ t.minute ≤ 59 ∧ t.second ≤ 59

instance (t : Timestamp) : Decidable t.Valid := by
  unfold Timestamp.Valid; infer_instance

/-- The external world of one Lambda invocation: the OpenSearch client
construction, the Bedrock calls (keyed by the text they are invoked on and the
attempt index), the index query (keyed by query text, filters and attempt
index) and the clock. -/
structure Env where
  init_os : Except PyErr Bool
  embed_op : String → Nat → Except PyErr Unit
  search_op : String → List (String × String) → Nat → Except PyErr (List Hit)
  subject_op : String → Nat → Except PyErr String
  level_op : String → Nat → Except PyErr String
  duration_op : String → Nat → Except PyErr String
  price_op : String → Nat → Except PyErr String
  now : Timestamp

/-- `get_embedding(text)` (`opensearch_utils.py` lines 85-102): the retried
Bedrock embedding call; its except block logs and re-raises, so the outcome is
exactly the retried result.  The embedding vector itself is opaque to every
claim, so the oracle succeeds with `Unit`. -/
def get_embedding (env : Env) (text : String) : Except PyErr Unit :=
  (retry_with_backoff (env.embed_op text)).result

/-- `semantic_search(query_text, filters, k)` (`opensearch_utils.py` lines
120-160): construct the client (`init_opensearch`, which may raise), embed the
query (raising on exhausted retries), then run the retried index query.  The
knn query construction is absorbed into the `search_op` oracle, keyed by the
query text and the filter list; the except block re-raises. -/
def semantic_search (env : Env) (query_text : String)
    (filters : List (String × String)) : Except PyErr (List Hit) := do
  let _ ← env.init_os
  let _ ← get_embedding env query_text
  (retry_with_backoff (env.search_op query_text filters)).result

namespace OpensearchUtils

/-- `opensearch_utils.search_courses(query, filters=None)` (lines 162-180):
run the semantic search and map each hit through the per-hit formatting; any
exception is caught, logged and turned into the empty list. -/
def search_courses (env : Env) (query : String)
    (filters : List (String × String) := []) : List Course :=
  match semantic_search env query filters with
  | .ok results => results.map formatHit
  | .error _ => []

end OpensearchUtils

/-- Python string value of an optional string rendered into an f-string:
`None` prints as "None". -/
def optNoneStr : Option String → String
  | some s => s
  | none => "None"

namespace AgentActions

/-- The `request_body` dict built by the `searchCourses` branch of
`lambda_handler` (`index.py` lines 54-66) and consumed by `search_courses`
(lines 172-175, with the dict defaults for absent keys already applied). -/
structure SearchRequest where
  subject : String
  level : Option String
  duration : Option String
  price_range : Option String
  page : Nat
  page_size : Nat
  deriving Repr, DecidableEq

/-- The result dict of `search_courses` (`index.py` lines 199-204). -/
structure CourseResultPage where
  courses : List Course
  totalResults : Nat
  currentPage : Nat
  totalPages : Nat
  deriving Repr, DecidableEq

/-- Python slice `l[a:b]` for `0 ≤ a ≤ b`: drop `a`, take `b - a`; an
out-of-range slice clamps to the available elements. -/
def pySlice {α : Type} (l : List α) (a b : Nat) : List α :=
  (l.drop a).take (b - a)

/-- `index.py search_courses(request_body)` (lines 167-207): build the level
filter when the level is truthy, run the semantic retrieval, and paginate the
results client-side.  The callee `opensearch_utils.search_courses` catches all
its exceptions, so the except branch of lines 205-207 (which logs and falls
off the function, returning `None`) is unreachable and the model is total. -/
def search_courses (env : Env) (request_body : SearchRequest) : CourseResultPage :=
  let subject := request_body.subject
  let level := request_body.level
  let page := request_body.page
  let page_size := request_body.page_size
  let filters : List (String × String) :=
    if pyTruthy level then [("difficultyLevel", level.getD "")] else []
  let courses := OpensearchUtils.search_courses env subject filters
  let total_results := courses.length
  let total_pages := (total_results + page_size - 1) / page_size
  let start_idx := (page - 1) * page_size
  let end_idx := start_idx + page_size
  { courses := pySlice courses start_idx end_idx,
    totalResults := total_results,
    currentPage := page,
    totalPages := total_pages }

/-- The fields of `book_course` result dict (`index.py` lines 278-287). -/
structure BookingResult where
  booking_id : String
  course_title : Option String
  user_name : Option String
  user_email : Option String
  start_date : String
  status : String
  message : String
  success : Bool
  deriving Repr, DecidableEq

/-- `book_course(request_body)` (`index.py` lines 263-294): read the three
booking fields (absent keys give `None`), generate the timestamp booking id
and return the confirmation dict.  Nothing in the try block can raise on any
input (`dict.get` and `strftime` are total), so the except branch of lines
289-294 returning `success: False` is unreachable and does not appear. -/
def book_course (now : Timestamp)
    (course_title user_name user_email : Option String) : BookingResult :=
  let booking_id := "BK-" ++ now.compact
  { booking_id := booking_id,
    course_title := course_title,
    user_name := user_name,
    user_email := user_email,
    start_date := now.dateStr,
    status := "CONFIRMED",
    message := "Successfully booked \"" ++ optNoneStr course_title ++ "\"",
    success := true }

/-- The payload dicts a dispatcher branch can hand to `format_response`,
kept symbolic (the `json.dumps` serialisation of `format_response` is not
re-modelled; the claims are about payload shape, not JSON text). -/
inductive Payload where
  | errObj (msg : String)
  | page (r : CourseResultPage)
  | failMsg (message : String)
  | detailsOk (course : Course)
  | greeting (messageFormat responseType message : String)
  | booking (b : BookingResult)
  deriving Repr, DecidableEq

/-- `get_course_details(request_body)` (`index.py` lines 209-251): an empty
title is a validation failure; otherwise look the title up by semantic search
(no filters) and return the top hit, or a not-found failure for an empty hit
list.  The callee catches all its exceptions, so the two defensive except
blocks (lines 225-230 and 246-251) are unreachable in the model. -/
def get_course_details (env : Env) (course_title : String) : Payload :=
  if course_title == "" then .failMsg "Course title is required"
  else
    match OpensearchUtils.search_courses env course_title with
    | [] => .failMsg ("Course with title \x27" ++ course_title ++ "\x27 not found")
    | course :: _ => .detailsOk course

/-- `handle_greeting()` (`index.py` lines 253-261): the fixed carousel
greeting descriptor. -/
def handle_greeting : Payload :=
  .greeting "custom" "carousel"
    "Welcome to our technical course recommender! Here are popular technical categories to explore."

/-- The agent response envelope built by `format_response` (`index.py` lines
296-318).  `sessionAttributes` and `promptSessionAttributes` are the two
always-empty trailing objects. -/
structure Envelope where
  messageVersion : String
  actionGroup : String
  function : Option String
  body : Payload
  sessionAttributes : List (String × String)
  promptSessionAttributes : List (String × String)
  deriving Repr, DecidableEq

/-- `format_response(body, status_code=200, function_name=None)` (`index.py`
lines 296-318): wrap the payload in the fixed envelope.  The `status_code`
argument is accepted but never placed in the returned dict, faithfully to the
source; the stringification of `body` stays symbolic. -/
def format_response (body : Payload) (status_code : Nat := 200)
    (function_name : Option String := none) : Envelope :=
  let _ := status_code
  { messageVersion := "1.0",
    actionGroup := "CourseOperations",
    function := function_name,
    body := body,
    sessionAttributes := [],
    promptSessionAttributes := [] }

/-- One entry of the event parameter list: the source keeps only entries that
are dicts carrying both a name and a value (`index.py` lines 29-32), so the
modelled entries always have both. -/
structure Param where
  name : String
  value : String
  deriving Repr, DecidableEq

/-- The agent invocation event (`index.py` lines 20-32): an optional function
name, an optional input text and an optional parameter list. -/
structure Event where
  function : Option String
  inputText : Option String
  parameters : Option (List Param)
  deriving Repr, DecidableEq

/-- The parameter dict built at `index.py` lines 28-32, looked up by name;
a duplicated name keeps the last value, as repeated dict assignment does. -/
def pGet (ps : List Param) (key : String) : Option String :=
  (ps.reverse.find? (fun p => p.name == key)).map (fun p => p.value)

/-- The `query_text` local of the `searchCourses` branch (`index.py` line 43):
the `text` parameter when present, otherwise the event input text. -/
def query_text (event : Event) : String :=
  (pGet (event.parameters.getD []) "text").getD (event.inputText.getD "")

/-- `lambda_handler(event, context)` (`index.py` lines 15-95).  The only step
inside the try block that can raise in the model is `init_opensearch()`
(every branch payload is computed by total functions because their sources
catch their own exceptions); the top-level except renders the raised error as
an error payload through the same envelope, with `function_name` always bound
because it is assigned before any raising step. -/
def lambda_handler (env : Env) (event : Event) : Envelope :=
  let function_name := event.function.getD "searchCourses"
  let input_text := event.inputText.getD ""
  let parameters := event.parameters.getD []
  match env.init_os with
  | .error e => format_response (.errObj e.toStr) 500 (some function_name)
  | .ok initOk =>
    if !initOk then
      format_response (.errObj "OpenSearch service is not available") 500 (some function_name)
    else if function_name == "searchCourses" then
      let query_text := (pGet parameters "text").getD input_text
      let subject := extract_subject (env.subject_op query_text) query_text
      let level := extract_parameter (env.level_op query_text)
      let duration := extract_parameter (env.duration_op query_text)
      let price_range := extract_parameter (env.price_op query_text)
      let request_body : SearchRequest :=
        { subject := subject,
          level := if pyTruthy level then level else none,
          duration := if pyTruthy duration then duration else none,
          price_range := if pyTruthy price_range then price_range else none,
          page := 1,
          page_size := 10 }
      format_response (.page (search_courses env request_body)) 200 (some function_name)
    else if function_name == "getCourseDetails" then
      let course_title := (pGet parameters "course_title").getD ""
      format_response (get_course_details env course_title) 200 (some function_name)
    else if function_name == "detectGreeting" then
      format_response handle_greeting 200 (some function_name)
    else if function_name == "bookCourse" then
      let result := book_course env.now
        (some ((pGet parameters "course_title").getD ""))
        (some ((pGet parameters "user_name").getD ""))
        (some ((pGet parameters "user_email").getD ""))
      format_response (.booking result) 200 (some function_name)
    else
      format_response (.errObj ("Unsupported function: " ++ function_name)) 400
        (some function_name)

end AgentActions

namespace WhatsappForwarder

/-- One inbound WhatsApp message record as read by `process_message`
(`lambda_function.py` lines 72-96): the subtype and the nested fields each
subtype branch reads, each absent field modelled as `none` (a `dict.get`
default fills in for it). -/
structure WaMessage where
  msgType : Option String
  textBody : Option String
  buttonPayload : Option String
  interactiveType : Option String
  buttonReplyTitle : Option String
  listReplyTitle : Option String
  deriving Repr, DecidableEq

/-- The text-extraction block of `process_message` (`lambda_function.py`
lines 81-96): the `text` subtype reads the body, `button` reads the payload,
`interactive` reads the nested reply title with a prefix, and any other
subtype (including an absent one, which prints as "None") synthesizes the
placeholder text. -/
def extract_message_text (m : WaMessage) : String :=
  if m.msgType == some "text" then m.textBody.getD ""
  else if m.msgType == some "button" then m.buttonPayload.getD ""
  else if m.msgType == some "interactive" then
    if m.interactiveType == some "button_reply" then
      "Button: " ++ (m.buttonReplyTitle.getD "")
    else if m.interactiveType == some "list_reply" then
      "List selection: " ++ (m.listReplyTitle.getD "")
    else ""
  else "[Received " ++ optNoneStr m.msgType ++ " message]"

end WhatsappForwarder

/-- Three concrete retrieval hits used to evaluate the model on sample
inputs. -/
def sampleHits : List Hit :=
  [⟨[("title", "Intro to ML")], "c1", "0.91"⟩,
   ⟨[("title", "Advanced ML")], "c2", "0.85"⟩,
   ⟨[("title", "ML Ops")], "c3", "0.77"⟩]

/-- A concrete healthy environment: the index answers with `sampleHits` and
every Bedrock extraction succeeds. -/
def sampleEnv : Env :=
  { init_os := .ok true
    embed_op := fun _ _ => .ok ()
    search_op := fun _ _ _ => .ok sampleHits
    subject_op := fun _ _ => .ok "machine learning"
    level_op := fun _ _ => .ok "NONE"
    duration_op := fun _ _ => .ok "NONE"
    price_op := fun _ _ => .ok "NONE"
    now := ⟨2026, 10, 12, 9, 30, 0⟩ }

/-- `sampleEnv` with an unreachable index: every query attempt raises a
non-throttle connection error. -/
def failingSearchEnv : Env :=
  { sampleEnv with
    search_op := fun _ _ _ => .error (.otherError "ConnectionError: cannot reach the index") }

/-- `sampleEnv` with a subject extraction that always raises a fatal error. -/
def failingSubjectEnv : Env :=
  { sampleEnv with subject_op := fun _ _ => .error (.otherError "boom") }

/-! ## Helper lemmas -/

/-- Run of `retryAux` that meets retried throttles up to attempt `n - 1` and a
success at attempt `n`: it returns the success value after `n + 1` calls. -/
lemma retryAux_ok {α : Type} (op : Nat → Except PyErr α) (v : α) :
    ∀ (n attempt budget : Nat),
      (∀ i, i < n → ∃ e, op (attempt + i) = .error e ∧ isThrottle e = true) →
      op (attempt + n) = .ok v → n ≤ budget →
      retryAux op attempt budget = ⟨.ok v, attempt + n + 1, attempt + n, false⟩ := by
  intro n
  induction n with
  | zero =>
    intro attempt budget _ hok _
    rw [Nat.add_zero] at hok
    unfold retryAux
    simp [hok]
  | succ n ih =>
    intro attempt budget hthr hok hle
    obtain ⟨e, he, hte⟩ := hthr 0 (Nat.succ_pos n)
    rw [Nat.add_zero] at he
    obtain ⟨b, rfl⟩ : ∃ b, budget = b + 1 := ⟨budget - 1, by omega⟩
    unfold retryAux
    simp only [he, hte, if_true]
    rw [show attempt + (n + 1) = attempt + 1 + n from by omega]
    refine ih (attempt + 1) b ?_ ?_ (by omega)
    · intro i hi
      obtain ⟨e2, he2, hte2⟩ := hthr (i + 1) (by omega)
      exact ⟨e2, by rwa [show attempt + 1 + i = attempt + (i + 1) from by omega], hte2⟩
    · rwa [show attempt + 1 + n = attempt + (n + 1) from by omega]

/-- Run of `retryAux` in which every allowed attempt meets a throttle: it
re-raises the error of the last attempt, having used the whole budget, and
fires the maximum-retries branch. -/
lemma retryAux_exhaust {α : Type} (op : Nat → Except PyErr α) (err : Nat → PyErr) :
    ∀ (budget attempt : Nat),
      (∀ i, i ≤ budget →
        op (attempt + i) = .error (err (attempt + i)) ∧
          isThrottle (err (attempt + i)) = true) →
      retryAux op attempt budget
        = ⟨.error (err (attempt + budget)), attempt + budget + 1, attempt + budget, true⟩ := by
  intro budget
  induction budget with
  | zero =>
    intro attempt h
    obtain ⟨he, ht⟩ := h 0 le_rfl
    rw [Nat.add_zero] at he ht
    unfold retryAux
    simp [he, ht]
  | succ b ih =>
    intro attempt h
    obtain ⟨he, ht⟩ := h 0 (Nat.zero_le _)
    rw [Nat.add_zero] at he ht
    unfold retryAux
    simp only [he, ht, if_true]
    rw [show attempt + (b + 1) = attempt + 1 + b from by omega]
    refine ih (attempt + 1) ?_
    intro i hi
    have h2 := h (i + 1) (by omega)
    rwa [show attempt + (i + 1) = attempt + 1 + i from by omega] at h2

/-- A fatal error in the claim C2 sense is also fatal for the source
classification (the claim classification covers the source one). -/
lemma isThrottle_false_of_claim (e : PyErr) (h : claimThrottle e = false) :
    isThrottle e = false := by
  cases e with
  | clientError code msg =>
    simp only [claimThrottle, Bool.or_eq_false_iff] at h
    simp only [isThrottle, Bool.or_eq_false_iff]
    tauto
  | otherError msg =>
    simp only [claimThrottle, Bool.or_eq_false_iff] at h
    simp only [isThrottle, Bool.or_eq_false_iff]
    tauto

/-- The integer computation `(n + k - 1) / k` of the source is the ceiling of
the rational `n / k`, for every `k ≥ 1`. -/
lemma nat_ceil_div (n k : ℕ) (hk : 1 ≤ k) :
    (n + k - 1) / k = ⌈(n : ℚ) / (k : ℚ)⌉₊ := by
  have hk0 : (0 : ℚ) < k := by exact_mod_cast hk
  rcases n with _ | m
  · rw [Nat.zero_add, Nat.div_eq_of_lt (by omega)]
    simp
  · rw [show m + 1 + k - 1 = m + k from by omega, Nat.add_div_right m (by omega)]
    apply le_antisymm
    · rw [Nat.add_one_le_iff, Nat.lt_ceil]
      rw [lt_div_iff₀ hk0]
      calc ((m / k : ℕ) : ℚ) * k ≤ (m : ℚ) := by exact_mod_cast Nat.div_mul_le_self m k
        _ < ((m + 1 : ℕ) : ℚ) := by push_cast; linarith
    · rw [Nat.ceil_le, div_le_iff₀ hk0]
      have h3 : (m + 1 : ℕ) ≤ m / k * k + k := by
        have hmod : m / k * k + m % k = m := Nat.div_add_mod' m k
        have : m % k < k := Nat.mod_lt _ (by omega)
        omega
      calc ((m + 1 : ℕ) : ℚ) ≤ ((m / k * k + k : ℕ) : ℚ) := by exact_mod_cast h3
        _ = ((m / k + 1 : ℕ) : ℚ) * k := by push_cast; ring

/-- A token flushed from a non-empty accumulator is a non-empty string. -/
lemma mk_reverse_ne_empty (acc : List Char) (h : acc.isEmpty = false) :
    String.mk acc.reverse ≠ "" := by
  intro hc
  have h2 : acc.reverse = [] := by
    have := congrArg String.data hc
    simpa using this
  rw [List.reverse_eq_nil_iff] at h2
  subst h2
  simp at h

/-- Every token produced by `pyWordsCore` is a non-empty string. -/
lemma pyWordsCore_ne_empty :
    ∀ (cs acc : List Char), ∀ w ∈ pyWordsCore cs acc, w ≠ "" := by
  intro cs
  induction cs with
  | nil =>
    intro acc w hw
    unfold pyWordsCore at hw
    by_cases h : acc.isEmpty
    · simp [h] at hw
    · simp [h] at hw
      subst hw
      exact mk_reverse_ne_empty acc (by simpa using h)
  | cons c cs ih =>
    intro acc w hw
    unfold pyWordsCore at hw
    by_cases hws : c.isWhitespace
    · simp only [hws, if_true] at hw
      by_cases h : acc.isEmpty
      · simp only [h, if_true] at hw
        exact ih [] w hw
      · simp [h] at hw
        rcases hw with h1 | h2
        · subst h1
          exact mk_reverse_ne_empty acc (by simpa using h)
        · exact ih [] w h2
    · simp only [hws, if_false] at hw
      exact ih (c :: acc) w hw

/-- The subject fallback value (first token, or the default) is never the
empty string. -/
lemma headD_pyWords_ne_empty (s : String) : (pyWords s).headD "general" ≠ "" := by
  cases h : pyWords s with
  | nil => simp [String.ext_iff]
  | cons w ws =>
    have hmem : w ∈ pyWordsCore s.data [] := by
      have h2 : pyWordsCore s.data [] = w :: ws := h
      rw [h2]
      exact List.mem_cons_self w ws
    rw [List.headD_cons]
    exact pyWordsCore_ne_empty s.data [] w hmem

/-- Every character produced by `digitChar` is a decimal digit. -/
lemma digitChar_isDigit (d : Nat) : (digitChar d).isDigit = true := by
  have h : d % 10 < 10 := Nat.mod_lt _ (by omega)
  unfold digitChar
  set r := d % 10 with hr
  interval_cases r <;> decide

/-- The fourteen characters of the compact timestamp rendering. -/
lemma compact_data (t : Timestamp) :
    t.compact.data = [digitChar (t.year / 1000), digitChar (t.year / 100),
      digitChar (t.year / 10), digitChar t.year, digitChar (t.month / 10), digitChar t.month,
      digitChar (t.day / 10), digitChar t.day, digitChar (t.hour / 10), digitChar t.hour,
      digitChar (t.minute / 10), digitChar t.minute, digitChar (t.second / 10),
      digitChar t.second] := rfl

/-- Every run of the dispatcher returns a `format_response` envelope: each
branch of the handler, including the top-level exception renderer, ends in
`format_response`. -/
lemma lambda_handler_enveloped (env : Env) (event : AgentActions.Event) :
    ∃ p st fn, AgentActions.lambda_handler env event
        = AgentActions.format_response p st fn := by
  unfold AgentActions.lambda_handler
  dsimp only
  repeat' split
  all_goals exact ⟨_, _, _, rfl⟩

/-! ## Claim theorems -/

/-- C1: for every operation whose attempts meet at most `max_retries`
throttle-classified failures followed by a success, `retry_with_backoff`
returns the success value (after one attempt per failure plus one); and for
every operation whose first `max_retries + 1` attempts all meet
throttle-classified failures, it makes exactly `max_retries + 1` attempts,
re-raises the error of the last attempt, and fires the exhausted-retries
branch (the tag logged before re-raising). -/
theorem retry_transient_spec {α : Type} (op : Nat → Except PyErr α)
    (err : Nat → PyErr) (v : α) (n max_retries : Nat) :
    (((∀ i, i < n → op i = .error (err i) ∧ isThrottle (err i) = true) ∧
        op n = .ok v ∧ n ≤ max_retries) →
      (retry_with_backoff op max_retries).result = .ok v ∧
      (retry_with_backoff op max_retries).attempts = n + 1) ∧
    ((∀ i, i ≤ max_retries → op i = .error (err i) ∧ isThrottle (err i) = true) →
      (retry_with_backoff op max_retries).result = .error (err max_retries) ∧
      (retry_with_backoff op max_retries).attempts = max_retries + 1 ∧
      (retry_with_backoff op max_retries).exhausted = true) := by
  constructor
  · rintro ⟨h1, h2, h3⟩
    have heq := retryAux_ok op v n 0 max_retries
      (fun i hi => ⟨err i, by simpa using (h1 i hi).1, (h1 i hi).2⟩)
      (by simpa using h2) h3
    unfold retry_with_backoff
    rw [heq]
    exact ⟨rfl, by simp⟩
  · intro h
    have heq := retryAux_exhaust op err max_retries 0
      (fun i hi => by simpa using h i hi)
    unfold retry_with_backoff
    rw [heq]
    refine ⟨by simp, by simp, rfl⟩

/-- Witness for C1: two throttles then a success give the success value in
three attempts; six persistent throttles at `max_retries = 5` give six
attempts, the last error and the exhausted tag. -/
theorem retry_transient_spec_witness :
    ((retry_with_backoff
        (fun i => if i < 2 then .error (.otherError "Throttling") else .ok (42 : Nat)) 5).result
        = .ok 42 ∧
      (retry_with_backoff
        (fun i => if i < 2 then .error (.otherError "Throttling") else .ok (42 : Nat)) 5).attempts
        = 2 + 1) ∧
    ((retry_with_backoff
        (fun _ => (.error (.otherError "Throttling") : Except PyErr Nat)) 5).result
        = .error (.otherError "Throttling") ∧
      (retry_with_backoff
        (fun _ => (.error (.otherError "Throttling") : Except PyErr Nat)) 5).attempts
        = 5 + 1 ∧
      (retry_with_backoff
        (fun _ => (.error (.otherError "Throttling") : Except PyErr Nat)) 5).exhausted
        = true) := by
  constructor
  · exact (retry_transient_spec
      (fun i => if i < 2 then .error (.otherError "Throttling") else .ok (42 : Nat))
      (fun _ => .otherError "Throttling") 42 2 5).1
      ⟨by intro i hi; interval_cases i <;> exact ⟨rfl, by decide⟩, rfl, by omega⟩
  · exact (retry_transient_spec
      (fun _ => (.error (.otherError "Throttling") : Except PyErr Nat))
      (fun _ => .otherError "Throttling") 42 5 5).2 (fun i _ => ⟨rfl, by decide⟩)

/-- C2: an operation whose first failure is fatal in the claim sense (not a
throttling/rate-limit error by code or by case-insensitive substring match)
is attempted exactly once, performs no backoff sleep, and its error
propagates unchanged (and untagged). -/
theorem retry_fatal_spec {α : Type} (op : Nat → Except PyErr α)
    (e : PyErr) (max_retries : Nat)
    (h1 : op 0 = .error e) (h2 : claimThrottle e = false) :
    retry_with_backoff op max_retries = ⟨.error e, 1, 0, false⟩ := by
  unfold retry_with_backoff retryAux
  simp [h1, isThrottle_false_of_claim e h2]

/-- Witness for C2 at a concrete fatal error. -/
theorem retry_fatal_spec_witness :
    (fun _ => (.error (.otherError "boom") : Except PyErr Nat)) 0
        = .error (.otherError "boom") ∧
    claimThrottle (.otherError "boom") = false ∧
    retry_with_backoff (fun _ => (.error (.otherError "boom") : Except PyErr Nat)) 5
      = ⟨.error (.otherError "boom"), 1, 0, false⟩ :=
  ⟨rfl, by decide, retry_fatal_spec _ (.otherError "boom") 5 rfl (by decide)⟩

/-- C3 evaluation: a `searchCourses` invocation whose retrieval fails (the
index query raises a connection error on every attempt) returns the
success-shaped empty page `{courses: [], totalResults: 0, currentPage: 1,
totalPages: 0}` through the 200 envelope, because
`opensearch_utils.search_courses` catches the exception and yields `[]` --
not the `{error: message}` payload the specification describes. -/
theorem search_retrieval_failure_returns_empty_success_page :
    AgentActions.lambda_handler failingSearchEnv
      { function := some "searchCourses",
        inputText := some "find machine learning courses",
        parameters := none }
      = AgentActions.format_response
          (.page { courses := [], totalResults := 0, currentPage := 1, totalPages := 0 })
          200 (some "searchCourses") := by
  decide

/-- C4: for every input event and environment (including environments whose
client construction raises and events with unrecognized function names), the
dispatcher result is a `format_response` envelope with messageVersion "1.0",
action group "CourseOperations" and empty session attribute objects; it never
propagates an error value. -/
theorem dispatcher_always_envelope (env : Env) (event : AgentActions.Event) :
    (∃ p st fn, AgentActions.lambda_handler env event
        = AgentActions.format_response p st fn) ∧
    (AgentActions.lambda_handler env event).messageVersion = "1.0" ∧
    (AgentActions.lambda_handler env event).actionGroup = "CourseOperations" ∧
    (AgentActions.lambda_handler env event).sessionAttributes = [] ∧
    (AgentActions.lambda_handler env event).promptSessionAttributes = [] := by
  obtain ⟨p, st, fn, h⟩ := lambda_handler_enveloped env event
  refine ⟨⟨p, st, fn, h⟩, ?_, ?_, ?_, ?_⟩ <;> rw [h] <;> rfl

/-- C5: the page computed by `search_courses` has
`totalPages = ceil(totalResults / page_size)`, its items are the Python slice
`results[(page-1)*page_size : page*page_size]` of the retrieval results, and
an out-of-range slice yields the empty list. -/
theorem search_courses_pagination_spec (env : Env) (rb : AgentActions.SearchRequest)
    (hp : 1 ≤ rb.page) (hs : 1 ≤ rb.page_size) :
    (AgentActions.search_courses env rb).totalPages
        = ⌈((AgentActions.search_courses env rb).totalResults : ℚ) / (rb.page_size : ℚ)⌉₊ ∧
    (AgentActions.search_courses env rb).courses
        = AgentActions.pySlice
            (OpensearchUtils.search_courses env rb.subject
              (if pyTruthy rb.level then [("difficultyLevel", rb.level.getD "")] else []))
            ((rb.page - 1) * rb.page_size) (rb.page * rb.page_size) ∧
    ((OpensearchUtils.search_courses env rb.subject
          (if pyTruthy rb.level then [("difficultyLevel", rb.level.getD "")] else [])).length
        ≤ (rb.page - 1) * rb.page_size →
      (AgentActions.search_courses env rb).courses = []) := by
  obtain ⟨p, hpage⟩ : ∃ p, rb.page = p + 1 := ⟨rb.page - 1, by omega⟩
  refine ⟨?_, ?_, ?_⟩
  · rw [show (AgentActions.search_courses env rb).totalPages
        = ((AgentActions.search_courses env rb).totalResults + rb.page_size - 1) / rb.page_size
      from rfl]
    exact nat_ceil_div _ _ hs
  · rw [show (AgentActions.search_courses env rb).courses
        = AgentActions.pySlice
            (OpensearchUtils.search_courses env rb.subject
              (if pyTruthy rb.level then [("difficultyLevel", rb.level.getD "")] else []))
            ((rb.page - 1) * rb.page_size) ((rb.page - 1) * rb.page_size + rb.page_size)
      from rfl]
    rw [hpage]
    unfold AgentActions.pySlice
    congr 1
    simp [Nat.succ_mul]
  · intro hlen
    rw [show (AgentActions.search_courses env rb).courses
        = AgentActions.pySlice
            (OpensearchUtils.search_courses env rb.subject
              (if pyTruthy rb.level then [("difficultyLevel", rb.level.getD "")] else []))
            ((rb.page - 1) * rb.page_size) ((rb.page - 1) * rb.page_size + rb.page_size)
      from rfl]
    unfold AgentActions.pySlice
    rw [List.drop_eq_nil_of_le hlen]
    simp

/-- Witness for C5: three retrieval hits, page 2 of size 2. -/
theorem search_courses_pagination_spec_witness :
    1 ≤ (AgentActions.SearchRequest.mk "ml" none none none 2 2).page ∧
    1 ≤ (AgentActions.SearchRequest.mk "ml" none none none 2 2).page_size ∧
    ((AgentActions.search_courses sampleEnv
          (AgentActions.SearchRequest.mk "ml" none none none 2 2)).totalPages
        = ⌈((AgentActions.search_courses sampleEnv
              (AgentActions.SearchRequest.mk "ml" none none none 2 2)).totalResults : ℚ)
            / ((AgentActions.SearchRequest.mk "ml" none none none 2 2).page_size : ℚ)⌉₊ ∧
      (AgentActions.search_courses sampleEnv
          (AgentActions.SearchRequest.mk "ml" none none none 2 2)).courses
        = AgentActions.pySlice
            (OpensearchUtils.search_courses sampleEnv
              (AgentActions.SearchRequest.mk "ml" none none none 2 2).subject
              (if pyTruthy (AgentActions.SearchRequest.mk "ml" none none none 2 2).level then
                [("difficultyLevel",
                  (AgentActions.SearchRequest.mk "ml" none none none 2 2).level.getD "")]
              else []))
            ((((AgentActions.SearchRequest.mk "ml" none none none 2 2).page - 1)
                * (AgentActions.SearchRequest.mk "ml" none none none 2 2).page_size))
            ((AgentActions.SearchRequest.mk "ml" none none none 2 2).page
                * (AgentActions.SearchRequest.mk "ml" none none none 2 2).page_size) ∧
      ((OpensearchUtils.search_courses sampleEnv
            (AgentActions.SearchRequest.mk "ml" none none none 2 2).subject
            (if pyTruthy (AgentActions.SearchRequest.mk "ml" none none none 2 2).level then
              [("difficultyLevel",
                (AgentActions.SearchRequest.mk "ml" none none none 2 2).level.getD "")]
            else [])).length
          ≤ ((AgentActions.SearchRequest.mk "ml" none none none 2 2).page - 1)
              * (AgentActions.SearchRequest.mk "ml" none none none 2 2).page_size →
        (AgentActions.search_courses sampleEnv
            (AgentActions.SearchRequest.mk "ml" none none none 2 2)).courses = [])) :=
  ⟨by decide, by decide,
    search_courses_pagination_spec sampleEnv
      (AgentActions.SearchRequest.mk "ml" none none none 2 2) (by decide) (by decide)⟩

/-- C6: a `book_course` call with all three fields present at a valid clock
reading returns status CONFIRMED, success true, and a booking id that is
"BK-" followed by exactly fourteen decimal digits. -/
theorem book_course_confirmed_spec (now : Timestamp) (t n e : String)
    (_hv : now.Valid) :
    (AgentActions.book_course now (some t) (some n) (some e)).status = "CONFIRMED" ∧
    (AgentActions.book_course now (some t) (some n) (some e)).success = true ∧
    ∃ ds : String,
      (AgentActions.book_course now (some t) (some n) (some e)).booking_id = "BK-" ++ ds ∧
      ds.length = 14 ∧ ds.data.all Char.isDigit = true := by
  refine ⟨rfl, rfl, now.compact, rfl, ?_, ?_⟩
  · rw [show now.compact.length = now.compact.data.length from rfl, compact_data]
    rfl
  · rw [compact_data]
    simp [digitChar_isDigit]

/-- Witness for C6 at a concrete clock reading and booking fields. -/
theorem book_course_confirmed_spec_witness :
    (Timestamp.mk 2026 10 12 9 30 0).Valid ∧
    ((AgentActions.book_course (Timestamp.mk 2026 10 12 9 30 0)
          (some "Intro to ML") (some "Ada") (some "ada@example.com")).status = "CONFIRMED" ∧
      (AgentActions.book_course (Timestamp.mk 2026 10 12 9 30 0)
          (some "Intro to ML") (some "Ada") (some "ada@example.com")).success = true ∧
      ∃ ds : String,
        (AgentActions.book_course (Timestamp.mk 2026 10 12 9 30 0)
            (some "Intro to ML") (some "Ada") (some "ada@example.com")).booking_id
          = "BK-" ++ ds ∧
        ds.length = 14 ∧ ds.data.all Char.isDigit = true) :=
  ⟨by decide,
    book_course_confirmed_spec (Timestamp.mk 2026 10 12 9 30 0)
      "Intro to ML" "Ada" "ada@example.com" (by decide)⟩

/-- C7: in a `searchCourses` invocation whose subject extraction call fails
after retries, the subject used for retrieval is the first whitespace token
of the query text ("general" when there is none), that subject is never the
empty string, and the dispatcher still returns a well-formed envelope rather
than an error value. -/
theorem search_subject_fallback_spec (env : Env) (event : AgentActions.Event) (e : PyErr)
    (_hfn : event.function.getD "searchCourses" = "searchCourses")
    (hfail : (retry_with_backoff
        (env.subject_op (AgentActions.query_text event))).result = .error e) :
    extract_subject (env.subject_op (AgentActions.query_text event))
        (AgentActions.query_text event)
      = (pyWords (AgentActions.query_text event)).headD "general" ∧
    extract_subject (env.subject_op (AgentActions.query_text event))
        (AgentActions.query_text event) ≠ "" ∧
    ∃ p st fn, AgentActions.lambda_handler env event
        = AgentActions.format_response p st fn := by
  refine ⟨?_, ?_, lambda_handler_enveloped env event⟩
  · unfold extract_subject
    rw [hfail]
  · unfold extract_subject
    rw [hfail]
    exact headD_pyWords_ne_empty _

/-- Witness for C7: fatal extraction failure on the input
"cloud computing courses". -/
theorem search_subject_fallback_spec_witness :
    (AgentActions.Event.mk (some "searchCourses")
        (some "cloud computing courses") none).function.getD "searchCourses"
      = "searchCourses" ∧
    (retry_with_backoff (failingSubjectEnv.subject_op
        (AgentActions.query_text (AgentActions.Event.mk (some "searchCourses")
          (some "cloud computing courses") none)))).result
      = .error (.otherError "boom") ∧
    (extract_subject (failingSubjectEnv.subject_op
        (AgentActions.query_text (AgentActions.Event.mk (some "searchCourses")
          (some "cloud computing courses") none)))
        (AgentActions.query_text (AgentActions.Event.mk (some "searchCourses")
          (some "cloud computing courses") none))
      = (pyWords (AgentActions.query_text (AgentActions.Event.mk (some "searchCourses")
          (some "cloud computing courses") none))).headD "general" ∧
    extract_subject (failingSubjectEnv.subject_op
        (AgentActions.query_text (AgentActions.Event.mk (some "searchCourses")
          (some "cloud computing courses") none)))
        (AgentActions.query_text (AgentActions.Event.mk (some "searchCourses")
          (some "cloud computing courses") none)) ≠ "" ∧
    ∃ p st fn, AgentActions.lambda_handler failingSubjectEnv
        (AgentActions.Event.mk (some "searchCourses") (some "cloud computing courses") none)
      = AgentActions.format_response p st fn) :=
  ⟨rfl, rfl,
    search_subject_fallback_spec failingSubjectEnv
      (AgentActions.Event.mk (some "searchCourses") (some "cloud computing courses") none)
      (.otherError "boom") rfl rfl⟩

/-- C8: an interactive record of subtype button_reply normalizes to the text
"Button: " followed by the reply title. -/
theorem interactive_button_reply_normalized (m : WhatsappForwarder.WaMessage) (t : String)
    (h1 : m.msgType = some "interactive") (h2 : m.interactiveType = some "button_reply")
    (h3 : m.buttonReplyTitle = some t) :
    WhatsappForwarder.extract_message_text m = "Button: " ++ t := by
  unfold WhatsappForwarder.extract_message_text
  rw [h1, h2, h3]
  rfl

/-- Witness for C8 at the scenario record of the specification. -/
theorem interactive_button_reply_normalized_witness :
    (WhatsappForwarder.WaMessage.mk (some "interactive") none none (some "button_reply")
        (some "Show me some Cloud Computing courses") none).msgType = some "interactive" ∧
    (WhatsappForwarder.WaMessage.mk (some "interactive") none none (some "button_reply")
        (some "Show me some Cloud Computing courses") none).interactiveType
      = some "button_reply" ∧
    (WhatsappForwarder.WaMessage.mk (some "interactive") none none (some "button_reply")
        (some "Show me some Cloud Computing courses") none).buttonReplyTitle
      = some "Show me some Cloud Computing courses" ∧
    WhatsappForwarder.extract_message_text
      (WhatsappForwarder.WaMessage.mk (some "interactive") none none (some "button_reply")
        (some "Show me some Cloud Computing courses") none)
      = "Button: Show me some Cloud Computing courses" :=
  ⟨rfl, rfl, rfl,
    (interactive_button_reply_normalized _ "Show me some Cloud Computing courses"
        rfl rfl rfl).trans (by decide)⟩

/-- C9: an event with no function field at all dispatches exactly as a
`searchCourses` invocation (the default), and with a healthy client it yields
a search result page, not the unsupported-function error payload. -/
theorem missing_function_defaults_to_search (env : Env) (event : AgentActions.Event)
    (h : event.function = none) :
    AgentActions.lambda_handler env event
      = AgentActions.lambda_handler env { event with function := some "searchCourses" } ∧
    (env.init_os = .ok true →
      ∃ r, (AgentActions.lambda_handler env event).body = .page r) := by
  obtain ⟨f, it, ps⟩ := event
  have h2 : f = none := h
  subst h2
  constructor
  · rfl
  · intro hinit
    unfold AgentActions.lambda_handler
    rw [hinit]
    exact ⟨_, rfl⟩

/-- Witness for C9 at a concrete function-less event and healthy
environment. -/
theorem missing_function_defaults_to_search_witness :
    (AgentActions.Event.mk none (some "show me cloud courses") none).function = none ∧
    (AgentActions.lambda_handler sampleEnv
        (AgentActions.Event.mk none (some "show me cloud courses") none)
      = AgentActions.lambda_handler sampleEnv
        (AgentActions.Event.mk (some "searchCourses") (some "show me cloud courses") none) ∧
    (sampleEnv.init_os = .ok true →
      ∃ r, (AgentActions.lambda_handler sampleEnv
          (AgentActions.Event.mk none (some "show me cloud courses") none)).body
        = .page r)) :=
  ⟨rfl, missing_function_defaults_to_search sampleEnv
    (AgentActions.Event.mk none (some "show me cloud courses") none) rfl⟩

/-- C10: `book_course` validates nothing: for every input, present or absent,
it returns success true and status CONFIRMED, echoing the given values (the
failure branch of its except block is unreachable, since nothing in the try
block can raise). -/
theorem book_course_no_validation (now : Timestamp) (ct un ue : Option String) :
    (AgentActions.book_course now ct un ue).success = true ∧
    (AgentActions.book_course now ct un ue).status = "CONFIRMED" ∧
    (AgentActions.book_course now ct un ue).course_title = ct ∧
    (AgentActions.book_course now ct un ue).user_name = un ∧
    (AgentActions.book_course now ct un ue).user_email = ue :=
  ⟨rfl, rfl, rfl, rfl, rfl⟩
